import Mathlib

set_option maxRecDepth 4000

/-!
Shallow embedding of the hello-tts Python repository (hello-tts-python).
Python strings are modelled as lists of characters, bytes as lists of
naturals, the file system as explicit maps, and fallible operations as
Except values.  Each definition mirrors one Python function of the source.
-/

/-- Python `str` modelled as a list of characters. -/
abbrev Str := List Char

/-- Python `bytes` modelled as a list of naturals. -/
abbrev Bytes := List Nat

/-- ASCII lower-casing of one character, modelling Python `str.lower` on the
ASCII range used throughout this repository. -/
def pyCharLower (c : Char) : Char :=
  match c with
  | 'A' => 'a' | 'B' => 'b' | 'C' => 'c' | 'D' => 'd' | 'E' => 'e'
  | 'F' => 'f' | 'G' => 'g' | 'H' => 'h' | 'I' => 'i' | 'J' => 'j'
  | 'K' => 'k' | 'L' => 'l' | 'M' => 'm' | 'N' => 'n' | 'O' => 'o'
  | 'P' => 'p' | 'Q' => 'q' | 'R' => 'r' | 'S' => 's' | 'T' => 't'
  | 'U' => 'u' | 'V' => 'v' | 'W' => 'w' | 'X' => 'x' | 'Y' => 'y'
  | 'Z' => 'z' | c => c

/-- Python `str.lower()`. -/
def pyLower (s : Str) : Str := s.map pyCharLower

/-- Python `str.strip()`: drop leading and trailing whitespace. -/
def pyStrip (s : Str) : Str :=
  ((s.dropWhile Char.isWhitespace).reverse.dropWhile Char.isWhitespace).reverse

/-- Python `str.split(sep)` for a one-character separator.  Always returns a
non-empty list; `"".split(sep) == [""]`. -/
def pySplitChar (sep : Char) : Str → List Str
  | [] => [[]]
  | c :: cs =>
    if c = sep then [] :: pySplitChar sep cs
    else
      match pySplitChar sep cs with
      | [] => [[c]]
      | r :: rs => (c :: r) :: rs

/-- `str(n)` for a natural number. -/
def pyStr (n : Nat) : Str := (Nat.repr n).toList

/-- POSIX `os.path.join` for two components, as used by the batch runners. -/
def osPathJoin (a b : Str) : Str :=
  if b.head? = some '/' then b
  else if a = [] then b
  else if a.getLast? = some '/' then a ++ b
  else a ++ '/' :: b

/-- The error kinds raised by the Python code: `TTSError`, raw OS errors,
`AudioError`, `FileNotFoundError`, `json.JSONDecodeError`, and the
`AttributeError`/`TypeError` a dynamically-typed slip would raise. -/
inductive PyError where
  | ttsError (msg : Str)
  | osError (msg : Str)
  | audioError (msg : Str)
  | fileNotFound (msg : Str)
  | jsonDecodeError (msg : Str)
  | attributeError (msg : Str)
  | typeError (msg : Str)
deriving DecidableEq

/-- Whether an error is (an instance of) `TTSError`. -/
def PyError.isTTS : PyError → Bool
  | .ttsError _ => true
  | _ => false

/-- JSON values, as produced by Python `json.load`. -/
inductive Json where
  | null
  | bool (b : Bool)
  | num (n : Int)
  | str (s : Str)
  | arr (els : List Json)
  | obj (fields : List (Str × Json))

/-- Python dict `.get(key)` on a JSON object's field list. -/
def jlookup : List (Str × Json) → Str → Option Json
  | [], _ => none
  | (k, v) :: rest, key => if k = key then some v else jlookup rest key

/-- Python dict `.get(key, default)`. -/
def jlookupD (kvs : List (Str × Json)) (key : Str) (dflt : Json) : Json :=
  (jlookup kvs key).getD dflt

/-- Python truthiness of a JSON value. -/
def jsonTruthy : Json → Bool
  | .null => false
  | .bool b => b
  | .num n => !(n == 0)
  | .str s => !s.isEmpty
  | .arr l => !l.isEmpty
  | .obj l => !l.isEmpty

/-- `voice.py` dataclass `Voice`. -/
structure Voice where
  name : Str
  display_name : Str
  locale : Str
  gender : Str
  description : Option Str
deriving DecidableEq

/-- `Voice.language_code` (voice.py line 62):
`self.locale.split('-')[0] if '-' in self.locale else self.locale`. -/
def Voice.language_code (v : Voice) : Str :=
  if v.locale.contains '-' then (pySplitChar '-' v.locale).headD [] else v.locale

/-- `Voice.get_voices_by_language` (voice.py lines 42-46): prefix match of the
normalized language against the lower-cased locale. -/
def Voice.get_voices_by_language (voices : List Voice) (language : Str) : List Voice :=
  let normalized_language := pyStrip (pyLower language)
  voices.filter (fun v => normalized_language.isPrefixOf (pyLower v.locale))

/-- `Voice.get_voices_by_locale` (voice.py lines 48-52): exact match of the
normalized locale against the lower-cased locale. -/
def Voice.get_voices_by_locale (voices : List Voice) (locale : Str) : List Voice :=
  let normalized_locale := pyStrip (pyLower locale)
  voices.filter (fun v => pyLower v.locale = normalized_locale)

/-- `Voice.get_voices_by_gender` (voice.py lines 54-58): exact match of the
normalized gender against the lower-cased gender. -/
def Voice.get_voices_by_gender (voices : List Voice) (gender : Str) : List Voice :=
  let normalized_gender := pyStrip (pyLower gender)
  voices.filter (fun v => pyLower v.gender = normalized_gender)

/-!
`Voice.parse_voices_from_json_file` (voice.py lines 15-40).  The file system
is modelled as a map from paths to the outcome of `json.load` on the file:
`none` means the path does not exist, `some (.error m)` means the file exists
but holds malformed JSON (json.load raises), `some (.ok j)` means it parses
to the JSON value `j`.  Our `Voice` fields are typed `Str`, so the embedding
reports a `typeError` where a JSON field that the code stores into a string
slot is a non-string value (Python's untyped dataclass would silently hold
it); the claims only concern documents whose fields are strings.
-/

/-- File system for JSON config files: path to parse outcome. -/
abbrev JsonFs := Str → Option (Except Str Json)

/-- The JSON keys read by the voice parser. -/
def kEdgeVoice : Str := "edge_voice".toList

def kName : Str := "name".toList

def kCode : Str := "code".toList

def kLanguages : Str := "languages".toList

/-- Extract the string value of an optional field with a default, mirroring
`lang_data.get(key, dflt)` stored into a string-typed slot. -/
def getStrField (kvs : List (Str × Json)) (key : Str) (dflt : Str) : Except PyError Str :=
  match jlookup kvs key with
  | none => .ok dflt
  | some (.str s) => .ok s
  | some _ => .error (.typeError ("expected string field".toList))

/-- One iteration of the loop in `parse_voices_from_json_file` (lines 28-38):
`edge_voice = lang_data.get('edge_voice'); if edge_voice: voices.append(...)`.
Returns `some v` when a `Voice` is appended, `none` when the entry is
skipped. -/
def parseEntry : Json → Except PyError (Option Voice)
  | .obj kvs =>
    match jlookup kvs kEdgeVoice with
    | some (.str s) =>
      if s.isEmpty then .ok none
      else do
        let nm ← getStrField kvs kName []
        let cd ← getStrField kvs kCode []
        .ok (some { name := s, display_name := nm, locale := cd,
                    gender := "Unknown".toList, description := none })
    | some v =>
      if jsonTruthy v then .error (.typeError ("expected string edge_voice".toList))
      else .ok none
    | none => .ok none
  | _ => .error (.attributeError ("lang_data has no attribute get".toList))

/-- The loop over `languages` in `parse_voices_from_json_file`. -/
def parseEntries : List Json → Except PyError (List Voice)
  | [] => .ok []
  | e :: rest => do
    let v? ← parseEntry e
    let vs ← parseEntries rest
    match v? with
    | some v => .ok (v :: vs)
    | none => .ok vs

/-- `Voice.parse_voices_from_json_file` (voice.py lines 15-40).  Raises
`FileNotFoundError` when the path does not exist, propagates the
`json.JSONDecodeError` of a malformed file, then iterates
`data.get('languages', [])`.  Iterating a non-list value mirrors Python:
a string or dict iterates its characters/keys (whose `.get` immediately
raises `AttributeError` unless empty), other scalars raise `TypeError`. -/
def Voice.parse_voices_from_json_file (fs : JsonFs) (json_file_path : Str) :
    Except PyError (List Voice) :=
  match fs json_file_path with
  | none =>
    .error (.fileNotFound ("Voice config file not found: ".toList ++ json_file_path))
  | some (.error e) => .error (.jsonDecodeError e)
  | some (.ok data) =>
    match data with
    | .obj kvs =>
      match jlookupD kvs kLanguages (.arr []) with
      | .arr ls => parseEntries ls
      | .str s =>
        if s.isEmpty then .ok []
        else .error (.attributeError ("str has no attribute get".toList))
      | .obj kvs2 =>
        if kvs2.isEmpty then .ok []
        else .error (.attributeError ("str has no attribute get".toList))
      | _ => .error (.typeError ("object is not iterable".toList))
    | _ => .error (.attributeError ("data has no attribute get".toList))

/-!
Backend clients (backends/edge/tts_client.py and backends/google/tts_client.py).
The on-disk file system is a map from paths to file contents; the underlying
I/O layer may fail on a given path, modelled by an `ioFail` map from paths to
an optional OS error message.
-/

/-- On-disk file system: path to file contents. -/
abbrev Fs := Str → Option Bytes

/-- Writing `data` at `path` overwrites whatever was there. -/
def updateFs (fs : Fs) (path : Str) (data : Bytes) : Fs :=
  fun p => if p = path then some data else fs p

/-- The underlying `open(filename,'wb')` / `f.write` pair: fails with the OS
error configured for the path, otherwise overwrites the file. -/
def osOpenWrite (ioFail : Str → Option Str) (fs : Fs) (path : Str) (data : Bytes) :
    Except Str Fs :=
  match ioFail path with
  | some msg => .error msg
  | none => .ok (updateFs fs path data)

/-- Edge `TTSClient.save_audio` (backends/edge/tts_client.py lines 41-43):
writes the bytes with no try/except, so an underlying I/O error propagates
as the raw OS error, not as a `TTSError`. -/
def edge_save_audio (ioFail : Str → Option Str) (fs : Fs) (audio_data : Bytes)
    (filename : Str) : Except PyError Fs :=
  match osOpenWrite ioFail fs filename audio_data with
  | .ok fs' => .ok fs'
  | .error m => .error (.osError m)

/-- Google `TTSClient.save_audio` (backends/google/tts_client.py lines 59-65):
writes the bytes inside a try/except that wraps any failure in `TTSError`. -/
def google_save_audio (ioFail : Str → Option Str) (fs : Fs) (audio_data : Bytes)
    (filename : Str) : Except PyError Fs :=
  match osOpenWrite ioFail fs filename audio_data with
  | .ok fs' => .ok fs'
  | .error m => .error (.ttsError ("Failed to save audio: ".toList ++ m))

/-!
Batch runner (hello_multilingual.py).  The TTS client's network-facing
`synthesize_text` is external, so it is a parameter: given text and voice it
either raises (`.error`), returns `None` (`.ok none`, the defensive check at
lines 117-120), or returns audio bytes.  `save_audio` and the audio player's
`play_file` are likewise parameters.  The result records the returned
boolean, the sequence of voices passed to `synthesize_text` (in order), the
final `used_voice` variable, and the file written on success.
-/

/-- `LanguageConfig` dataclass (hello_multilingual.py lines 39-60). -/
structure LanguageConfig where
  code : Str
  name : Str
  flag : Str
  text : Str
  voice : Str
  alt_voice : Option Str
deriving DecidableEq

/-- The audio file written by a successful run. -/
structure SavedAudio where
  filename : Str
  path : Str
  data : Bytes
deriving DecidableEq

/-- Observable outcome of `generate_audio_for_language`. -/
structure GenResult where
  success : Bool
  attempts : List Str
  usedVoice : Str
  savedFile : Option SavedAudio
deriving DecidableEq

/-- The filename generated at hello_multilingual.py lines 147-151:
`f"{lang_prefix}_python_{backend_name}_{timestamp}.mp3"` with
`lang_prefix = lang_code.split('-')[0]` and
`backend_name = 'gtts' if backend == 'google' else backend`. -/
def genFilename (lang_code backend : Str) (timestamp : Nat) : Str :=
  let langSub := (pySplitChar '-' lang_code).headD []
  let backend_name := if backend = "google".toList then "gtts".toList else backend
  langSub ++ "_python_".toList ++ backend_name ++ "_".toList ++
    pyStr timestamp ++ ".mp3".toList

/-- hello_multilingual.py lines 147-175: the code after a successful
synthesis.  Generates the filename, saves (a save failure is caught by the
outer `except` and returns `False`), then optionally plays the file
(`AudioError` is downgraded to a warning; any other playback error reaches
the outer `except`). -/
def afterSynthesis (save : Bytes → Str → Except PyError Unit)
    (play : Str → Except PyError Unit) (cfg : LanguageConfig)
    (output_dir backend : Str) (timestamp : Nat) (play_audio : Bool)
    (attempts : List Str) (used_voice : Str) (audio_data : Bytes) : GenResult :=
  let filename := genFilename cfg.code backend timestamp
  let output_path := osPathJoin output_dir filename
  match save audio_data output_path with
  | .error _ =>
    { success := false, attempts := attempts, usedVoice := used_voice,
      savedFile := none }
  | .ok _ =>
    if play_audio then
      match play output_path with
      | .ok _ =>
        { success := true, attempts := attempts, usedVoice := used_voice,
          savedFile := some ⟨filename, output_path, audio_data⟩ }
      | .error (.audioError _) =>
        { success := true, attempts := attempts, usedVoice := used_voice,
          savedFile := some ⟨filename, output_path, audio_data⟩ }
      | .error _ =>
        { success := false, attempts := attempts, usedVoice := used_voice,
          savedFile := some ⟨filename, output_path, audio_data⟩ }
    else
      { success := true, attempts := attempts, usedVoice := used_voice,
        savedFile := some ⟨filename, output_path, audio_data⟩ }

/-- `generate_audio_for_language` (hello_multilingual.py lines 88-179).
Primary voice first; on an exception (any `Exception`), retry once with the
alternate voice when one is configured and truthy, adopting it as
`used_voice` on success; a `None` result or a second exception marks the
language failed.  All failures are caught at this boundary: the function is
total and returns a `GenResult`. -/
def generate_audio_for_language
    (synth : Str → Str → Except PyError (Option Bytes))
    (save : Bytes → Str → Except PyError Unit)
    (play : Str → Except PyError Unit)
    (cfg : LanguageConfig) (output_dir backend : Str) (timestamp : Nat)
    (play_audio : Bool) : GenResult :=
  let text := cfg.text
  let voice := cfg.voice
  match synth text voice with
  | .ok none =>
    { success := false, attempts := [voice], usedVoice := voice, savedFile := none }
  | .ok (some audio_data) =>
    afterSynthesis save play cfg output_dir backend timestamp play_audio
      [voice] voice audio_data
  | .error _ =>
    match cfg.alt_voice with
    | some alt_voice =>
      if alt_voice.isEmpty then
        { success := false, attempts := [voice], usedVoice := voice, savedFile := none }
      else
        match synth text alt_voice with
        | .ok none =>
          { success := false, attempts := [voice, alt_voice], usedVoice := voice,
            savedFile := none }
        | .ok (some audio_data) =>
          afterSynthesis save play cfg output_dir backend timestamp play_audio
            [voice, alt_voice] alt_voice audio_data
        | .error _ =>
          { success := false, attempts := [voice, alt_voice], usedVoice := voice,
            savedFile := none }
    | none =>
      { success := false, attempts := [voice], usedVoice := voice, savedFile := none }

/-- The per-language success/failure counting loop of `main`
(hello_multilingual.py lines 219-238): fold the outcomes into
`(successful_count, failed_count)`. -/
def runBatch (outcome : LanguageConfig → Bool) (langs : List LanguageConfig) :
    Nat × Nat :=
  langs.foldl
    (fun counts c =>
      if outcome c then (counts.1 + 1, counts.2) else (counts.1, counts.2 + 1))
    (0, 0)

/-- The batch runner's final exit status (hello_multilingual.py line 262):
`return 0 if failed_count == 0 else 1`. -/
def batchExit (outcome : LanguageConfig → Bool) (langs : List LanguageConfig) : Nat :=
  if (runBatch outcome langs).2 = 0 then 0 else 1

/-- The whole of `main` (hello_multilingual.py lines 182-262): an empty or
unloadable language list, or a failed client initialization, exits 1 before
any language is processed; otherwise the exit status is `batchExit`. -/
def mainExit (langs : List LanguageConfig) (initOk : Bool)
    (outcome : LanguageConfig → Bool) : Nat :=
  if langs.isEmpty then 1
  else if !initOk then 1
  else batchExit outcome langs

/-!
The second batch runner, multilingual_demo.py.  Its language configs are raw
dicts; the fields its `generate_audio_for_language` reads are embedded as a
structure of optional strings (with the four always-present display fields
as strings).  The backend tag comes from the `TTS_BACKEND` environment
variable (default "edge") and is used verbatim in the filename (lines
152-156) — there is no `'gtts'` substitution in this file.  Only `TTSError`
triggers the alternate-voice retry here (lines 129-150); any other primary
exception reaches the outer handler without a retry.
-/

/-- Python `a or b` over optional strings (empty string is falsy). -/
def pyOrStr (a b : Option Str) : Option Str :=
  match a with
  | some s => if s.isEmpty then b else some s
  | none => b

/-- The dict fields read by multilingual_demo.py's per-language function. -/
structure DemoLanguageConfig where
  code : Str
  name : Str
  flag : Str
  text : Str
  edge_voice : Option Str
  google_voice : Option Str
  voice : Option Str
  alt_voice : Option Str
  alt_google : Option Str
deriving DecidableEq

/-- The filename generated at multilingual_demo.py lines 153-155:
`f"{lang_prefix}_python_{backend}_{timestamp}.mp3"` — the backend string is
used verbatim, with no `'gtts'` substitution. -/
def demoFilename (lang_code backend : Str) (timestamp : Nat) : Str :=
  let langSub := (pySplitChar '-' lang_code).headD []
  langSub ++ "_python_".toList ++ backend ++ "_".toList ++
    pyStr timestamp ++ ".mp3".toList

/-- multilingual_demo.py lines 152-179: after a successful synthesis. -/
def demoAfterSynthesis (save : Bytes → Str → Except PyError Unit)
    (play : Str → Except PyError Unit) (lang_code : Str)
    (output_dir backend : Str) (timestamp : Nat) (play_audio : Bool)
    (attempts : List Str) (used_voice : Str) (audio_data : Bytes) : GenResult :=
  let filename := demoFilename lang_code backend timestamp
  let output_path := osPathJoin output_dir filename
  match save audio_data output_path with
  | .error _ =>
    { success := false, attempts := attempts, usedVoice := used_voice,
      savedFile := none }
  | .ok _ =>
    if play_audio then
      match play output_path with
      | .ok _ =>
        { success := true, attempts := attempts, usedVoice := used_voice,
          savedFile := some ⟨filename, output_path, audio_data⟩ }
      | .error (.audioError _) =>
        { success := true, attempts := attempts, usedVoice := used_voice,
          savedFile := some ⟨filename, output_path, audio_data⟩ }
      | .error _ =>
        { success := false, attempts := attempts, usedVoice := used_voice,
          savedFile := some ⟨filename, output_path, audio_data⟩ }
    else
      { success := true, attempts := attempts, usedVoice := used_voice,
        savedFile := some ⟨filename, output_path, audio_data⟩ }

/-- The try/except body of multilingual_demo.py's per-language function
(lines 110-183), with the selected voices as arguments.  Only `TTSError`
from the primary attempt triggers the alternate retry. -/
def demo_generate_core
    (synth : Str → Option Str → Except PyError (Option Bytes))
    (save : Bytes → Str → Except PyError Unit)
    (play : Str → Except PyError Unit)
    (code text : Str) (output_dir backend : Str)
    (voice alt_voice : Option Str)
    (timestamp : Nat) (play_audio : Bool) : GenResult :=
  let voiceAttempt := (voice.getD [])
  let failNoRetry : GenResult :=
    { success := false, attempts := [voiceAttempt], usedVoice := voiceAttempt,
      savedFile := none }
  match synth text voice with
  | .ok none => failNoRetry
  | .ok (some audio_data) =>
    demoAfterSynthesis save play code output_dir backend timestamp play_audio
      [voiceAttempt] voiceAttempt audio_data
  | .error (.ttsError _) =>
    match alt_voice with
    | some av =>
      if av.isEmpty then failNoRetry
      else
        match synth text (some av) with
        | .ok none =>
          { success := false, attempts := [voiceAttempt, av],
            usedVoice := voiceAttempt, savedFile := none }
        | .ok (some audio_data) =>
          demoAfterSynthesis save play code output_dir backend timestamp
            play_audio [voiceAttempt, av] av audio_data
        | .error _ =>
          { success := false, attempts := [voiceAttempt, av],
            usedVoice := voiceAttempt, savedFile := none }
    | none => failNoRetry
  | .error _ => failNoRetry

/-- multilingual_demo.py `generate_audio_for_language` (lines 83-183).
`envBackend` models `os.environ.get('TTS_BACKEND')`; voices are selected
from the dict by the lower-cased backend; the synthesis call receives an
optional voice (Python would pass `None` through). -/
def demo_generate_audio_for_language
    (synth : Str → Option Str → Except PyError (Option Bytes))
    (save : Bytes → Str → Except PyError Unit)
    (play : Str → Except PyError Unit)
    (cfg : DemoLanguageConfig) (output_dir : Str) (envBackend : Option Str)
    (timestamp : Nat) (play_audio : Bool) : GenResult :=
  let backend := envBackend.getD ("edge".toList)
  let voice :=
    if pyLower backend = "google".toList then pyOrStr cfg.google_voice cfg.voice
    else pyOrStr cfg.edge_voice cfg.voice
  let alt_voice :=
    if pyLower backend = "google".toList then pyOrStr cfg.alt_google cfg.alt_voice
    else cfg.alt_voice
  demo_generate_core synth save play cfg.code cfg.text output_dir backend
    voice alt_voice timestamp play_audio

/-!
Helper lemmas about the string model.
-/

theorem pyCharLower_isWhitespace (c : Char) :
    (pyCharLower c).isWhitespace = c.isWhitespace := by
  unfold pyCharLower
  split <;> rfl

theorem dropWhile_append_of_all {α : Type} (p : α → Bool) (l m : List α)
    (h : ∀ c ∈ l, p c = true) : (l ++ m).dropWhile p = m.dropWhile p := by
  induction l with
  | nil => rfl
  | cons x xs ih =>
    simp only [List.cons_append, List.dropWhile_cons, h x (List.mem_cons_self x xs)]
    exact ih (fun c hc => h c (List.mem_cons_of_mem x hc))

theorem dropWhile_eq_nil_of_all {α : Type} (p : α → Bool) (l : List α)
    (h : ∀ c ∈ l, p c = true) : l.dropWhile p = [] := by
  rw [List.dropWhile_eq_nil_iff]
  exact h

theorem pyStrip_append_left (l s : Str) (hl : ∀ c ∈ l, c.isWhitespace = true) :
    pyStrip (l ++ s) = pyStrip s := by
  unfold pyStrip
  rw [dropWhile_append_of_all _ l s hl]

theorem pyStrip_append_right (s r : Str) (hr : ∀ c ∈ r, c.isWhitespace = true) :
    pyStrip (s ++ r) = pyStrip s := by
  unfold pyStrip
  rw [List.dropWhile_append]
  by_cases h : (s.dropWhile Char.isWhitespace).isEmpty = true
  · rw [if_pos h, dropWhile_eq_nil_of_all _ r hr]
    rw [List.isEmpty_iff] at h
    rw [h]
  · rw [if_neg h, List.reverse_append,
      dropWhile_append_of_all _ r.reverse _
        (fun c hc => hr c (List.mem_reverse.mp hc))]

theorem pyStrip_wrap (l r q : Str) (hl : ∀ c ∈ l, c.isWhitespace = true)
    (hr : ∀ c ∈ r, c.isWhitespace = true) : pyStrip (l ++ (q ++ r)) = pyStrip q := by
  rw [pyStrip_append_left _ _ hl]
  exact pyStrip_append_right q r hr

theorem pyLower_append (a b : Str) : pyLower (a ++ b) = pyLower a ++ pyLower b :=
  List.map_append pyCharLower a b

theorem pyLower_whitespace (l : Str) (h : ∀ c ∈ l, c.isWhitespace = true) :
    ∀ c ∈ pyLower l, c.isWhitespace = true := by
  intro c hc
  obtain ⟨d, hd, rfl⟩ := List.mem_map.mp hc
  rw [pyCharLower_isWhitespace]
  exact h d hd

theorem pyStrip_pyLower (s : Str) : pyStrip (pyLower s) = pyLower (pyStrip s) := by
  have hp : (Char.isWhitespace ∘ pyCharLower) = Char.isWhitespace :=
    funext pyCharLower_isWhitespace
  unfold pyStrip pyLower
  rw [List.dropWhile_map, hp, ← List.map_reverse, List.dropWhile_map, hp,
    List.map_reverse]

theorem pySplitChar_ne_nil (sep : Char) (s : Str) : pySplitChar sep s ≠ [] := by
  induction s with
  | nil => simp [pySplitChar]
  | cons c cs ih =>
    unfold pySplitChar
    by_cases h : c = sep
    · simp [h]
    · rw [if_neg h]
      cases hs : pySplitChar sep cs with
      | nil => simp
      | cons r rs => simp

theorem pySplitChar_headD (sep : Char) (s : Str) :
    (pySplitChar sep s).headD [] = s.takeWhile (fun c => c != sep) := by
  induction s with
  | nil => rfl
  | cons c cs ih =>
    unfold pySplitChar
    by_cases h : c = sep
    · rw [if_pos h]
      have : (c != sep) = false := by simp [bne, h]
      simp [List.takeWhile_cons, this]
    · rw [if_neg h]
      cases hs : pySplitChar sep cs with
      | nil => exact absurd hs (pySplitChar_ne_nil sep cs)
      | cons r rs =>
        rw [hs] at ih
        simp only [List.headD] at ih ⊢
        have : (c != sep) = true := by simp [bne, h]
        simp [List.takeWhile_cons, this, ih]

/-- Claim C6: for every `Voice` `v`, `v.language_code()` equals the part of
`v.locale` before the first `-`, and equals the whole locale when no `-`
occurs in it. -/
theorem claim_c6 (v : Voice) :
    v.language_code = v.locale.takeWhile (fun c => c != '-')
    ∧ (v.locale.contains '-' = false → v.language_code = v.locale) := by
  constructor
  · unfold Voice.language_code
    by_cases h : v.locale.contains '-'
    · rw [if_pos h]
      exact pySplitChar_headD '-' v.locale
    · rw [if_neg h]
      symm
      apply List.takeWhile_eq_self_iff.mpr
      intro c hc
      have hne : ¬('-' ∈ v.locale) := fun hmem => h (List.elem_iff.mpr hmem)
      simp only [bne_iff_ne, ne_eq]
      rintro rfl
      exact hne hc
  · intro h
    unfold Voice.language_code
    rw [h]
    rfl

/-- Example voices used by concrete witnesses. -/
def vEnUS : Voice :=
  ⟨"en-US-AriaNeural".toList, "Aria".toList, "en-US".toList, "Female".toList, none⟩

def vEnGB : Voice :=
  ⟨"en-GB-SoniaNeural".toList, "Sonia".toList, "en-GB".toList, "Female".toList, none⟩

def vFrFR : Voice :=
  ⟨"fr-FR-DeniseNeural".toList, "Denise".toList, "fr-FR".toList, "Female".toList, none⟩

def vFr : Voice :=
  ⟨"fr-voice".toList, "Fr".toList, "fr".toList, "unknown".toList, none⟩

theorem claim_c6_witness :
    Voice.language_code vEnUS = "en".toList
    ∧ Voice.language_code vFr = vFr.locale := by
  exact ⟨(claim_c6 vEnUS).1.trans (by decide), (claim_c6 vFr).2 (by decide)⟩

/-- Claim C7: for a query with no surrounding whitespace,
`get_voices_by_language` returns exactly the voices whose locale has the
query as a case-insensitive prefix, in input order (it is the evident
order-preserving filter). -/
theorem claim_c7 (voices : List Voice) (language : Str)
    (h : pyStrip language = language) :
    Voice.get_voices_by_language voices language
      = voices.filter (fun v => (pyLower language).isPrefixOf (pyLower v.locale)) := by
  unfold Voice.get_voices_by_language
  rw [pyStrip_pyLower, h]

theorem claim_c7_witness :
    pyStrip ("en".toList) = "en".toList
    ∧ Voice.get_voices_by_language [vEnUS, vEnGB, vFrFR] ("en".toList)
        = [vEnUS, vEnGB] := by
  have h := claim_c7 [vEnUS, vEnGB, vFrFR] ("en".toList) (by decide)
  exact ⟨by decide, h.trans (by decide)⟩

/-- Claim C10: the three filter operations normalize the query by
lower-casing and stripping surrounding whitespace, so two queries that
differ only in surrounding whitespace and letter case give identical
results. -/
theorem claim_c10 (voices : List Voice) (q1 q2 ws1 ws2 ws3 ws4 : Str)
    (h1 : ∀ c ∈ ws1, c.isWhitespace = true) (h2 : ∀ c ∈ ws2, c.isWhitespace = true)
    (h3 : ∀ c ∈ ws3, c.isWhitespace = true) (h4 : ∀ c ∈ ws4, c.isWhitespace = true)
    (hcase : pyLower q1 = pyLower q2) :
    Voice.get_voices_by_language voices (ws1 ++ (q1 ++ ws2))
      = Voice.get_voices_by_language voices (ws3 ++ (q2 ++ ws4))
    ∧ Voice.get_voices_by_locale voices (ws1 ++ (q1 ++ ws2))
      = Voice.get_voices_by_locale voices (ws3 ++ (q2 ++ ws4))
    ∧ Voice.get_voices_by_gender voices (ws1 ++ (q1 ++ ws2))
      = Voice.get_voices_by_gender voices (ws3 ++ (q2 ++ ws4)) := by
  have key : pyStrip (pyLower (ws1 ++ (q1 ++ ws2)))
      = pyStrip (pyLower (ws3 ++ (q2 ++ ws4))) := by
    rw [pyLower_append, pyLower_append, pyLower_append, pyLower_append]
    rw [pyStrip_wrap _ _ _ (pyLower_whitespace ws1 h1) (pyLower_whitespace ws2 h2)]
    rw [pyStrip_wrap _ _ _ (pyLower_whitespace ws3 h3) (pyLower_whitespace ws4 h4)]
    rw [hcase]
  refine ⟨?_, ?_, ?_⟩ <;>
    simp only [Voice.get_voices_by_language, Voice.get_voices_by_locale,
      Voice.get_voices_by_gender, key]

theorem claim_c10_witness :
    Voice.get_voices_by_language [vEnUS, vEnGB, vFrFR] ("  EN ".toList)
      = Voice.get_voices_by_language [vEnUS, vEnGB, vFrFR] ("en".toList)
    ∧ Voice.get_voices_by_locale [vEnUS, vEnGB, vFrFR] ("  EN ".toList)
      = Voice.get_voices_by_locale [vEnUS, vEnGB, vFrFR] ("en".toList)
    ∧ Voice.get_voices_by_gender [vEnUS, vEnGB, vFrFR] ("  EN ".toList)
      = Voice.get_voices_by_gender [vEnUS, vEnGB, vFrFR] ("en".toList) := by
  have h := claim_c10 [vEnUS, vEnGB, vFrFR] ("EN".toList) ("en".toList)
    ("  ".toList) (" ".toList) [] []
    (by decide) (by decide) (by decide) (by decide) (by decide)
  simpa using h

/-!
Claims C4 and C9: save_audio of the two backend clients.
-/

/-- An I/O layer that fails when writing "out.mp3" (e.g. a full disk). -/
def ioFailDisk : Str → Option Str :=
  fun p => if p = "out.mp3".toList then some ("disk full".toList) else none

/-- An I/O layer with no failures. -/
def ioFailNone : Str → Option Str := fun _ => none

/-- An empty file system. -/
def fsEmpty : Fs := fun _ => none

/-- Counterexample to claim C4 as stated: the Edge variant's `save_audio`
has no try/except around its write, so an underlying I/O error propagates
as the raw OS error and is not a `TTSError` (only the Google variant
wraps). -/
theorem claim_c4_counterexample :
    edge_save_audio ioFailDisk fsEmpty [1, 2] ("out.mp3".toList)
      = .error (.osError ("disk full".toList))
    ∧ PyError.isTTS (.osError ("disk full".toList)) = false := by
  exact ⟨rfl, rfl⟩

/-- Claim C4 (amended): both variants write the bytes to the path,
overwriting any existing file; on an underlying I/O error the Google
variant fails with a `TTSError` wrapping the error, while the Edge variant
propagates the underlying error unwrapped. -/
theorem claim_c4 (ioFail : Str → Option Str) (fs : Fs) (data : Bytes) (path : Str) :
    (ioFail path = none →
      google_save_audio ioFail fs data path = .ok (updateFs fs path data)
      ∧ edge_save_audio ioFail fs data path = .ok (updateFs fs path data)
      ∧ updateFs fs path data path = some data)
    ∧ (∀ m, ioFail path = some m →
      google_save_audio ioFail fs data path
        = .error (.ttsError ("Failed to save audio: ".toList ++ m))
      ∧ edge_save_audio ioFail fs data path = .error (.osError m)) := by
  constructor
  · intro h
    refine ⟨?_, ?_, ?_⟩
    · unfold google_save_audio osOpenWrite
      rw [h]
    · unfold edge_save_audio osOpenWrite
      rw [h]
    · unfold updateFs
      simp
  · intro m h
    constructor
    · unfold google_save_audio osOpenWrite
      rw [h]
    · unfold edge_save_audio osOpenWrite
      rw [h]

theorem claim_c4_witness :
    (google_save_audio ioFailNone fsEmpty [7] ("a.mp3".toList)
      = .ok (updateFs fsEmpty ("a.mp3".toList) [7])
    ∧ edge_save_audio ioFailNone fsEmpty [7] ("a.mp3".toList)
      = .ok (updateFs fsEmpty ("a.mp3".toList) [7])
    ∧ updateFs fsEmpty ("a.mp3".toList) [7] ("a.mp3".toList) = some [7])
    ∧ google_save_audio ioFailDisk fsEmpty [7] ("out.mp3".toList)
      = .error (.ttsError ("Failed to save audio: ".toList ++ "disk full".toList)) := by
  exact ⟨(claim_c4 ioFailNone fsEmpty [7] ("a.mp3".toList)).1 rfl,
    ((claim_c4 ioFailDisk fsEmpty [7] ("out.mp3".toList)).2 ("disk full".toList) rfl).1⟩

/-- Claim C9: for both backends, saving bytes and reading the file back at
the same path yields exactly the written bytes (the write is verbatim). -/
theorem claim_c9 (ioFail : Str → Option Str) (fs : Fs) (data : Bytes) (path : Str)
    (h : ioFail path = none) :
    (∀ fs', google_save_audio ioFail fs data path = .ok fs' → fs' path = some data)
    ∧ (∀ fs', edge_save_audio ioFail fs data path = .ok fs' → fs' path = some data)
    ∧ google_save_audio ioFail fs data path = .ok (updateFs fs path data)
    ∧ edge_save_audio ioFail fs data path = .ok (updateFs fs path data) := by
  have hg : google_save_audio ioFail fs data path = .ok (updateFs fs path data) := by
    unfold google_save_audio osOpenWrite
    rw [h]
  have he : edge_save_audio ioFail fs data path = .ok (updateFs fs path data) := by
    unfold edge_save_audio osOpenWrite
    rw [h]
  refine ⟨?_, ?_, hg, he⟩
  · intro fs' hfs'
    rw [hg] at hfs'
    injection hfs' with h2
    rw [← h2]
    unfold updateFs
    simp
  · intro fs' hfs'
    rw [he] at hfs'
    injection hfs' with h2
    rw [← h2]
    unfold updateFs
    simp

theorem claim_c9_witness :
    google_save_audio ioFailNone fsEmpty [3, 4] ("rt.mp3".toList)
      = .ok (updateFs fsEmpty ("rt.mp3".toList) [3, 4])
    ∧ updateFs fsEmpty ("rt.mp3".toList) [3, 4] ("rt.mp3".toList) = some [3, 4] := by
  have h := claim_c9 ioFailNone fsEmpty [3, 4] ("rt.mp3".toList) rfl
  exact ⟨h.2.2.1, h.1 _ h.2.2.1⟩

/-!
Claim C5: parse_voices_from_json_file.
-/

/-- The spec's description of one parsed entry (amended to the code's
capitalization of the gender): an entry with a non-empty string
`edge_voice` yields `Voice{name=edge_voice, display_name=name, locale=code,
gender="Unknown"}`; any other entry yields nothing. -/
def specVoiceOfEntry : Json → Option Voice
  | .obj kvs =>
    match jlookup kvs kEdgeVoice with
    | some (.str s) =>
      if s.isEmpty then none
      else
        some { name := s,
               display_name :=
                 (match jlookup kvs kName with
                  | some (.str t) => t
                  | _ => []),
               locale :=
                 (match jlookup kvs kCode with
                  | some (.str t) => t
                  | _ => []),
               gender := "Unknown".toList, description := none }
    | _ => none
  | _ => none

/-- Entries of the shape the spec describes: a JSON object whose
`edge_voice` field is a string or falsy, and whose `name`/`code` fields are
strings when present. -/
def entryWellFormed : Json → Bool
  | .obj kvs =>
    (match jlookup kvs kEdgeVoice with
     | none => true
     | some (.str _) => true
     | some v => !jsonTruthy v) &&
    (match jlookup kvs kName with
     | none => true
     | some (.str _) => true
     | some _ => false) &&
    (match jlookup kvs kCode with
     | none => true
     | some (.str _) => true
     | some _ => false)
  | _ => false

theorem parseEntry_eq_spec (e : Json) (h : entryWellFormed e = true) :
    parseEntry e = .ok (specVoiceOfEntry e) := by
  cases e with
  | obj kvs =>
    simp only [entryWellFormed, Bool.and_eq_true] at h
    obtain ⟨⟨hev0, hnm0⟩, hcd0⟩ := h
    cases hev : jlookup kvs kEdgeVoice with
    | none => simp [parseEntry, specVoiceOfEntry, hev]
    | some v =>
      rw [hev] at hev0
      cases v with
      | str s =>
        by_cases hs : s.isEmpty
        · simp [parseEntry, specVoiceOfEntry, hev, hs]
        · cases hnm : jlookup kvs kName with
          | none =>
            cases hcd : jlookup kvs kCode with
            | none =>
              simp [parseEntry, specVoiceOfEntry, getStrField, hev, hs, hnm, hcd,
                Bind.bind, Except.bind]
            | some w =>
              rw [hcd] at hcd0
              cases w <;> simp_all [parseEntry, specVoiceOfEntry, getStrField,
                Bind.bind, Except.bind]
          | some w =>
            rw [hnm] at hnm0
            cases w with
            | str t =>
              cases hcd : jlookup kvs kCode with
              | none =>
                simp [parseEntry, specVoiceOfEntry, getStrField, hev, hs, hnm, hcd,
                  Bind.bind, Except.bind]
              | some w2 =>
                rw [hcd] at hcd0
                cases w2 <;> simp_all [parseEntry, specVoiceOfEntry, getStrField,
                  Bind.bind, Except.bind]
            | null => simp at hnm0
            | bool b => simp at hnm0
            | num n => simp at hnm0
            | arr l => simp at hnm0
            | obj l => simp at hnm0
      | null => simp [parseEntry, specVoiceOfEntry, hev, jsonTruthy]
      | bool b =>
        cases b with
        | true => simp [jsonTruthy] at hev0
        | false => simp [parseEntry, specVoiceOfEntry, hev, jsonTruthy]
      | num n =>
        by_cases hn : n = 0
        · simp [parseEntry, specVoiceOfEntry, hev, jsonTruthy, hn]
        · simp [jsonTruthy, hn] at hev0
      | arr l =>
        cases l with
        | nil => simp [parseEntry, specVoiceOfEntry, hev, jsonTruthy]
        | cons x xs => simp [jsonTruthy] at hev0
      | obj l =>
        cases l with
        | nil => simp [parseEntry, specVoiceOfEntry, hev, jsonTruthy]
        | cons x xs => simp [jsonTruthy] at hev0
  | null => simp [entryWellFormed] at h
  | bool b => simp [entryWellFormed] at h
  | num n => simp [entryWellFormed] at h
  | str s => simp [entryWellFormed] at h
  | arr l => simp [entryWellFormed] at h

theorem parseEntries_eq_spec (ls : List Json)
    (h : ∀ e ∈ ls, entryWellFormed e = true) :
    parseEntries ls = .ok (ls.filterMap specVoiceOfEntry) := by
  induction ls with
  | nil => rfl
  | cons e rest ih =>
    unfold parseEntries
    rw [parseEntry_eq_spec e (h e (List.mem_cons_self e rest)),
      ih (fun x hx => h x (List.mem_cons_of_mem e hx))]
    cases hspec : specVoiceOfEntry e <;>
      simp [List.filterMap_cons, hspec, Bind.bind, Except.bind]

theorem specVoiceOfEntry_gender (e : Json) (v : Voice)
    (h : specVoiceOfEntry e = some v) : v.gender = "Unknown".toList := by
  cases e with
  | obj kvs =>
    cases hev : jlookup kvs kEdgeVoice with
    | none => simp [specVoiceOfEntry, hev] at h
    | some w =>
      cases w with
      | str s =>
        simp only [specVoiceOfEntry, hev] at h
        by_cases hs : s.isEmpty = true
        · rw [if_pos hs] at h
          exact absurd h (by simp)
        · rw [if_neg hs] at h
          injection h with h2
          rw [← h2]
      | null => simp [specVoiceOfEntry, hev] at h
      | bool b => simp [specVoiceOfEntry, hev] at h
      | num n => simp [specVoiceOfEntry, hev] at h
      | arr l => simp [specVoiceOfEntry, hev] at h
      | obj l => simp [specVoiceOfEntry, hev] at h
  | null => simp [specVoiceOfEntry] at h
  | bool b => simp [specVoiceOfEntry] at h
  | num n => simp [specVoiceOfEntry] at h
  | str s => simp [specVoiceOfEntry] at h
  | arr l => simp [specVoiceOfEntry] at h

/-- Claim C5 (amended: the constructed gender is the code's literal
`"Unknown"`, which matches the spec's `unknown` only case-insensitively):
for a JSON document `{"languages": [...]}` whose entries have string
fields, the parser emits exactly one Voice per entry with a non-empty
`edge_voice`, with `name = edge_voice`, `display_name` = the entry's name,
`locale` = the entry's code and `gender = "Unknown"`; other entries emit
nothing; a missing path fails with `FileNotFoundError` and a malformed file
propagates the JSON parse error. -/
theorem claim_c5 (fs : JsonFs) (path : Str) (kvs : List (Str × Json))
    (entries : List Json)
    (hfs : fs path = some (.ok (.obj kvs)))
    (hl : jlookupD kvs kLanguages (.arr []) = .arr entries)
    (hwf : ∀ e ∈ entries, entryWellFormed e = true) :
    Voice.parse_voices_from_json_file fs path = .ok (entries.filterMap specVoiceOfEntry)
    ∧ (∀ v ∈ entries.filterMap specVoiceOfEntry, v.gender = "Unknown".toList)
    ∧ (∀ p, fs p = none →
        Voice.parse_voices_from_json_file fs p
          = .error (.fileNotFound ("Voice config file not found: ".toList ++ p)))
    ∧ (∀ p m, fs p = some (.error m) →
        Voice.parse_voices_from_json_file fs p = .error (.jsonDecodeError m)) := by
  refine ⟨?_, ?_, ?_, ?_⟩
  · simp only [Voice.parse_voices_from_json_file, hfs, hl]
    exact parseEntries_eq_spec entries hwf
  · intro v hv
    obtain ⟨e, _, hve⟩ := List.mem_filterMap.mp hv
    exact specVoiceOfEntry_gender e v hve
  · intro p hp
    simp only [Voice.parse_voices_from_json_file, hp]
  · intro p m hp
    simp only [Voice.parse_voices_from_json_file, hp]

/-- A concrete config entry and file system used by C5's witnesses. -/
def cfgEntry : Json :=
  .obj [(kEdgeVoice, .str ("en-US-AriaNeural".toList)),
        (kName, .str ("English".toList)),
        (kCode, .str ("en-US".toList))]

def fsVoiceCfg : JsonFs :=
  fun p =>
    if p = "cfg.json".toList then some (.ok (.obj [(kLanguages, .arr [cfgEntry])]))
    else none

/-- Counterexample to claim C5 as stated: the Voice built from a well-formed
entry carries gender `"Unknown"` (capitalized, voice.py line 35), which is
not the string `"unknown"` the claim names. -/
theorem claim_c5_counterexample :
    Voice.parse_voices_from_json_file fsVoiceCfg ("cfg.json".toList)
      = .ok [{ name := "en-US-AriaNeural".toList, display_name := "English".toList,
               locale := "en-US".toList, gender := "Unknown".toList,
               description := none }]
    ∧ ("Unknown".toList : Str) ≠ "unknown".toList := by
  exact ⟨rfl, by decide⟩

theorem claim_c5_witness :
    Voice.parse_voices_from_json_file fsVoiceCfg ("cfg.json".toList)
      = .ok ([cfgEntry].filterMap specVoiceOfEntry)
    ∧ Voice.parse_voices_from_json_file fsVoiceCfg ("missing.json".toList)
      = .error (.fileNotFound
          ("Voice config file not found: ".toList ++ "missing.json".toList)) := by
  have h := claim_c5 fsVoiceCfg ("cfg.json".toList) [(kLanguages, .arr [cfgEntry])]
    [cfgEntry] rfl rfl (by decide)
  exact ⟨h.1, h.2.2.1 ("missing.json".toList) rfl⟩

/-!
Lemmas about the batch runner.
-/

theorem afterSynthesis_attempts (save : Bytes → Str → Except PyError Unit)
    (play : Str → Except PyError Unit) (cfg : LanguageConfig)
    (d bk : Str) (ts : Nat) (pa : Bool) (atts : List Str) (uv : Str) (b : Bytes) :
    (afterSynthesis save play cfg d bk ts pa atts uv b).attempts = atts := by
  simp only [afterSynthesis]
  cases save b (osPathJoin d (genFilename cfg.code bk ts)) with
  | error e => rfl
  | ok u =>
    cases pa with
    | false => rfl
    | true =>
      cases play (osPathJoin d (genFilename cfg.code bk ts)) with
      | ok w => rfl
      | error e => cases e <;> rfl

theorem afterSynthesis_ok (save : Bytes → Str → Except PyError Unit)
    (play : Str → Except PyError Unit) (cfg : LanguageConfig)
    (d bk : Str) (ts : Nat) (atts : List Str) (uv : Str) (b : Bytes)
    (hsave : save b (osPathJoin d (genFilename cfg.code bk ts)) = .ok ()) :
    afterSynthesis save play cfg d bk ts false atts uv b
      = { success := true, attempts := atts, usedVoice := uv,
          savedFile := some ⟨genFilename cfg.code bk ts,
            osPathJoin d (genFilename cfg.code bk ts), b⟩ } := by
  simp only [afterSynthesis, hsave]
  rfl

theorem afterSynthesis_success_inv (save : Bytes → Str → Except PyError Unit)
    (play : Str → Except PyError Unit) (cfg : LanguageConfig)
    (d bk : Str) (ts : Nat) (atts : List Str) (uv : Str) (b : Bytes)
    (h : (afterSynthesis save play cfg d bk ts false atts uv b).success = true) :
    (afterSynthesis save play cfg d bk ts false atts uv b).savedFile
      = some ⟨genFilename cfg.code bk ts, osPathJoin d (genFilename cfg.code bk ts), b⟩ := by
  revert h
  simp only [afterSynthesis]
  cases save b (osPathJoin d (genFilename cfg.code bk ts)) with
  | error e => exact fun h => absurd h Bool.false_ne_true
  | ok u => exact fun _ => rfl

/-- Claim C1: when the primary voice raises and a (truthy) alternate voice
is configured, exactly one retry happens, with the alternate voice; if the
alternate synthesis succeeds and the save succeeds the language is reported
successful, `used_voice` is the alternate, and the saved file holds the
alternate attempt's audio; if the alternate also raises, the language is
marked failed. -/
theorem claim_c1 (synth : Str → Str → Except PyError (Option Bytes))
    (save : Bytes → Str → Except PyError Unit) (play : Str → Except PyError Unit)
    (cfg : LanguageConfig) (output_dir backend : Str) (timestamp : Nat)
    (e : PyError) (av : Str)
    (hp : synth cfg.text cfg.voice = .error e)
    (ha : cfg.alt_voice = some av) (hne : av ≠ []) :
    (generate_audio_for_language synth save play cfg output_dir backend timestamp
        false).attempts = [cfg.voice, av]
    ∧ (∀ b, synth cfg.text av = .ok (some b) →
        save b (osPathJoin output_dir (genFilename cfg.code backend timestamp)) = .ok () →
        (generate_audio_for_language synth save play cfg output_dir backend timestamp
            false).success = true
        ∧ (generate_audio_for_language synth save play cfg output_dir backend timestamp
            false).usedVoice = av
        ∧ (generate_audio_for_language synth save play cfg output_dir backend timestamp
            false).savedFile
          = some ⟨genFilename cfg.code backend timestamp,
              osPathJoin output_dir (genFilename cfg.code backend timestamp), b⟩)
    ∧ (∀ e2, synth cfg.text av = .error e2 →
        (generate_audio_for_language synth save play cfg output_dir backend timestamp
            false).success = false
        ∧ (generate_audio_for_language synth save play cfg output_dir backend timestamp
            false).savedFile = none) := by
  have hne' : av.isEmpty = false := by
    cases av with
    | nil => exact absurd rfl hne
    | cons a l => rfl
  refine ⟨?_, ?_, ?_⟩
  · simp only [generate_audio_for_language, hp, ha, hne', Bool.false_eq_true,
      if_false]
    cases hs : synth cfg.text av with
    | ok ob =>
      cases ob with
      | none => rfl
      | some b => exact afterSynthesis_attempts _ _ _ _ _ _ _ _ _ _
    | error e2 => rfl
  · intro b hb hsave
    simp only [generate_audio_for_language, hp, ha, hne', Bool.false_eq_true,
      if_false, hb]
    rw [afterSynthesis_ok _ _ _ _ _ _ _ _ _ hsave]
    refine ⟨?_, ?_, ?_⟩ <;> rfl
  · intro e2 he2
    simp only [generate_audio_for_language, hp, ha, hne', Bool.false_eq_true,
      if_false, he2]
    exact ⟨trivial, trivial⟩

/-- Concrete oracles for the batch-runner witnesses. -/
def synthPrimFails : Str → Str → Except PyError (Option Bytes) :=
  fun _ v =>
    if v = "alt".toList then .ok (some [1, 2, 3])
    else .error (.ttsError ("boom".toList))

def synthAlwaysFails : Str → Str → Except PyError (Option Bytes) :=
  fun _ _ => .error (.ttsError ("boom".toList))

def synthOkBytes : Str → Str → Except PyError (Option Bytes) :=
  fun _ _ => .ok (some [9])

def synthOptOkBytes : Str → Option Str → Except PyError (Option Bytes) :=
  fun _ _ => .ok (some [9])

def saveOk : Bytes → Str → Except PyError Unit := fun _ _ => .ok ()

def playOk : Str → Except PyError Unit := fun _ => .ok ()

def lcRetry : LanguageConfig :=
  ⟨"en-US".toList, "English".toList, "us".toList, "hi".toList,
   "prim".toList, some ("alt".toList)⟩

def lcNoAlt : LanguageConfig :=
  ⟨"fr".toList, "French".toList, "fr".toList, "salut".toList, "v".toList, none⟩

theorem claim_c1_witness :
    (generate_audio_for_language synthPrimFails saveOk playOk lcRetry
        ("output".toList) ("edge".toList) 5 false).attempts
      = ["prim".toList, "alt".toList]
    ∧ (generate_audio_for_language synthPrimFails saveOk playOk lcRetry
        ("output".toList) ("edge".toList) 5 false).success = true
    ∧ (generate_audio_for_language synthPrimFails saveOk playOk lcRetry
        ("output".toList) ("edge".toList) 5 false).usedVoice = "alt".toList := by
  have h := claim_c1 synthPrimFails saveOk playOk lcRetry ("output".toList)
    ("edge".toList) 5 (.ttsError ("boom".toList)) ("alt".toList) rfl rfl (by decide)
  exact ⟨h.1, (h.2.1 [1, 2, 3] rfl rfl).1, (h.2.1 [1, 2, 3] rfl rfl).2.1⟩

/-- Claim C2: when the primary voice raises and no (truthy) alternate voice
is configured, the language is marked failed immediately, only one
synthesis attempt is made, nothing is saved, and the failure is counted (the
per-language function is total, so the batch is never aborted): a batch of
just this language counts 0 successes and 1 failure. -/
theorem claim_c2 (synth : Str → Str → Except PyError (Option Bytes))
    (save : Bytes → Str → Except PyError Unit) (play : Str → Except PyError Unit)
    (cfg : LanguageConfig) (output_dir backend : Str) (timestamp : Nat)
    (e : PyError)
    (hp : synth cfg.text cfg.voice = .error e)
    (ha : cfg.alt_voice = none ∨ cfg.alt_voice = some []) :
    (generate_audio_for_language synth save play cfg output_dir backend timestamp
        false).success = false
    ∧ (generate_audio_for_language synth save play cfg output_dir backend timestamp
        false).attempts = [cfg.voice]
    ∧ (generate_audio_for_language synth save play cfg output_dir backend timestamp
        false).savedFile = none
    ∧ runBatch (fun c => (generate_audio_for_language synth save play c output_dir
        backend timestamp false).success) [cfg] = (0, 1) := by
  have hgen : generate_audio_for_language synth save play cfg output_dir backend
      timestamp false
      = { success := false, attempts := [cfg.voice], usedVoice := cfg.voice,
          savedFile := none } := by
    rcases ha with h | h
    · simp only [generate_audio_for_language, hp, h]
    · simp only [generate_audio_for_language, hp, h]
      rfl
  refine ⟨by rw [hgen], by rw [hgen], by rw [hgen], ?_⟩
  simp [runBatch, hgen]

theorem claim_c2_witness :
    (generate_audio_for_language synthAlwaysFails saveOk playOk lcNoAlt
        ("output".toList) ("edge".toList) 5 false).success = false
    ∧ (generate_audio_for_language synthAlwaysFails saveOk playOk lcNoAlt
        ("output".toList) ("edge".toList) 5 false).attempts = [lcNoAlt.voice]
    ∧ (generate_audio_for_language synthAlwaysFails saveOk playOk lcNoAlt
        ("output".toList) ("edge".toList) 5 false).savedFile = none
    ∧ runBatch (fun c => (generate_audio_for_language synthAlwaysFails saveOk playOk
        c ("output".toList) ("edge".toList) 5 false).success) [lcNoAlt] = (0, 1) :=
  claim_c2 synthAlwaysFails saveOk playOk lcNoAlt ("output".toList) ("edge".toList)
    5 (.ttsError ("boom".toList)) rfl (Or.inl rfl)

theorem runBatch_eq (outcome : LanguageConfig → Bool) (langs : List LanguageConfig) :
    runBatch outcome langs
      = ((langs.filter (fun c => outcome c)).length,
         (langs.filter (fun c => !(outcome c))).length) := by
  have key : ∀ (l : List LanguageConfig) (s f : Nat),
      l.foldl (fun counts c =>
        if outcome c then (counts.1 + 1, counts.2) else (counts.1, counts.2 + 1)) (s, f)
      = (s + (l.filter (fun c => outcome c)).length,
         f + (l.filter (fun c => !(outcome c))).length) := by
    intro l
    induction l with
    | nil =>
      intro s f
      simp
    | cons c cs ih =>
      intro s f
      rw [List.foldl_cons]
      by_cases hc : outcome c = true
      · rw [if_pos hc, ih]
        simp [List.filter_cons, hc]
        omega
      · have hc' : outcome c = false := by
          simpa using hc
        rw [if_neg (by simp [hc']), ih]
        simp [List.filter_cons, hc']
        omega
  unfold runBatch
  rw [key]
  simp

/-- Claim C8: the failed count tracked by the batch loop is the number of
languages whose per-language outcome is failure, and the runner's exit
status (line 262) is 0 exactly when that count is 0; any failed language
forces exit status 1. -/
theorem claim_c8 (outcome : LanguageConfig → Bool) (langs : List LanguageConfig) :
    (runBatch outcome langs).2 = (langs.filter (fun c => !(outcome c))).length
    ∧ (batchExit outcome langs = 0 ↔ (runBatch outcome langs).2 = 0)
    ∧ (∀ c ∈ langs, outcome c = false → batchExit outcome langs = 1) := by
  refine ⟨by rw [runBatch_eq], ?_, ?_⟩
  · unfold batchExit
    by_cases hz : (runBatch outcome langs).2 = 0
    · simp [hz]
    · simp [hz]
  · intro c hc hfalse
    have hmem : c ∈ langs.filter (fun x => !(outcome x)) :=
      List.mem_filter.mpr ⟨hc, by simp [hfalse]⟩
    have hpos : (runBatch outcome langs).2 ≠ 0 := by
      rw [runBatch_eq]
      show (langs.filter (fun x => !(outcome x))).length ≠ 0
      have := List.length_pos.mpr (List.ne_nil_of_mem hmem)
      omega
    simp [batchExit, hpos]

theorem claim_c8_witness :
    batchExit (fun _ => false) [lcNoAlt] = 1 :=
  (claim_c8 (fun _ => false) [lcNoAlt]).2.2 lcNoAlt (by simp) rfl

/-!
Claim C3: the generated filename.
-/

theorem afterSynthesis_success_savedFile (save : Bytes → Str → Except PyError Unit)
    (play : Str → Except PyError Unit) (cfg : LanguageConfig)
    (d bk : Str) (ts : Nat) (atts : List Str) (uv : Str) (b : Bytes)
    (h : (afterSynthesis save play cfg d bk ts false atts uv b).success = true) :
    (afterSynthesis save play cfg d bk ts false atts uv b).savedFile
      = some ⟨genFilename cfg.code bk ts,
          osPathJoin d (genFilename cfg.code bk ts), b⟩ := by
  revert h
  simp only [afterSynthesis]
  cases save b (osPathJoin d (genFilename cfg.code bk ts)) with
  | error e => exact fun h => absurd h Bool.false_ne_true
  | ok u => exact fun _ => rfl

theorem demoAfterSynthesis_success_savedFile (save : Bytes → Str → Except PyError Unit)
    (play : Str → Except PyError Unit) (code : Str)
    (d bk : Str) (ts : Nat) (atts : List Str) (uv : Str) (b : Bytes)
    (h : (demoAfterSynthesis save play code d bk ts false atts uv b).success = true) :
    (demoAfterSynthesis save play code d bk ts false atts uv b).savedFile
      = some ⟨demoFilename code bk ts,
          osPathJoin d (demoFilename code bk ts), b⟩ := by
  revert h
  simp only [demoAfterSynthesis]
  cases save b (osPathJoin d (demoFilename code bk ts)) with
  | error e => exact fun h => absurd h Bool.false_ne_true
  | ok u => exact fun _ => rfl

theorem generate_success_savedFile (synth : Str → Str → Except PyError (Option Bytes))
    (save : Bytes → Str → Except PyError Unit) (play : Str → Except PyError Unit)
    (cfg : LanguageConfig) (d bk : Str) (ts : Nat)
    (h : (generate_audio_for_language synth save play cfg d bk ts false).success = true) :
    ∃ b, (generate_audio_for_language synth save play cfg d bk ts false).savedFile
      = some ⟨genFilename cfg.code bk ts,
          osPathJoin d (genFilename cfg.code bk ts), b⟩ := by
  revert h
  simp only [generate_audio_for_language]
  cases hs : synth cfg.text cfg.voice with
  | ok ob =>
    cases ob with
    | none => exact fun h => absurd h Bool.false_ne_true
    | some b =>
      exact fun h => ⟨b, afterSynthesis_success_savedFile _ _ _ _ _ _ _ _ _ h⟩
  | error e =>
    cases ha : cfg.alt_voice with
    | none => exact fun h => absurd h Bool.false_ne_true
    | some av =>
      by_cases hav : av.isEmpty = true
      · simp [hav]
      · have hav2 : av.isEmpty = false := by simpa using hav
        simp only [hav2, Bool.false_eq_true, if_false]
        cases hs2 : synth cfg.text av with
        | ok ob2 =>
          cases ob2 with
          | none => exact fun h => absurd h Bool.false_ne_true
          | some b =>
            exact fun h => ⟨b, afterSynthesis_success_savedFile _ _ _ _ _ _ _ _ _ h⟩
        | error e2 => exact fun h => absurd h Bool.false_ne_true

theorem demo_core_success_savedFile
    (synth : Str → Option Str → Except PyError (Option Bytes))
    (save : Bytes → Str → Except PyError Unit) (play : Str → Except PyError Unit)
    (code text d bk : Str) (voice alt : Option Str) (ts : Nat)
    (h : (demo_generate_core synth save play code text d bk voice alt ts
        false).success = true) :
    ∃ b, (demo_generate_core synth save play code text d bk voice alt ts
        false).savedFile
      = some ⟨demoFilename code bk ts, osPathJoin d (demoFilename code bk ts), b⟩ := by
  revert h
  simp only [demo_generate_core]
  cases hs : synth text voice with
  | ok ob =>
    cases ob with
    | none => exact fun h => absurd h Bool.false_ne_true
    | some b =>
      exact fun h => ⟨b, demoAfterSynthesis_success_savedFile _ _ _ _ _ _ _ _ _ h⟩
  | error e =>
    cases e with
    | ttsError m =>
      cases ha : alt with
      | none => exact fun h => absurd h Bool.false_ne_true
      | some av =>
        by_cases hav : av.isEmpty = true
        · simp [hav]
        · have hav2 : av.isEmpty = false := by simpa using hav
          simp only [hav2, Bool.false_eq_true, if_false]
          cases hs2 : synth text (some av) with
          | ok ob2 =>
            cases ob2 with
            | none => exact fun h => absurd h Bool.false_ne_true
            | some b =>
              exact fun h =>
                ⟨b, demoAfterSynthesis_success_savedFile _ _ _ _ _ _ _ _ _ h⟩
          | error e2 => exact fun h => absurd h Bool.false_ne_true
    | osError m => exact fun h => absurd h Bool.false_ne_true
    | audioError m => exact fun h => absurd h Bool.false_ne_true
    | fileNotFound m => exact fun h => absurd h Bool.false_ne_true
    | jsonDecodeError m => exact fun h => absurd h Bool.false_ne_true
    | attributeError m => exact fun h => absurd h Bool.false_ne_true
    | typeError m => exact fun h => absurd h Bool.false_ne_true

theorem demo_generate_success_savedFile
    (synth : Str → Option Str → Except PyError (Option Bytes))
    (save : Bytes → Str → Except PyError Unit) (play : Str → Except PyError Unit)
    (cfg : DemoLanguageConfig) (d : Str) (envB : Option Str) (ts : Nat)
    (h : (demo_generate_audio_for_language synth save play cfg d envB ts
        false).success = true) :
    ∃ b, (demo_generate_audio_for_language synth save play cfg d envB ts
        false).savedFile
      = some ⟨demoFilename cfg.code (envB.getD ("edge".toList)) ts,
          osPathJoin d (demoFilename cfg.code (envB.getD ("edge".toList)) ts), b⟩ :=
  demo_core_success_savedFile synth save play cfg.code cfg.text d
    (envB.getD ("edge".toList)) _ _ ts h

/-- The spec's filename scheme
`{primaryLanguageSubcode}_python_{backendTag}_{unixTimestamp}.mp3`, with the
primary language subcode being the part of the language code before any
`-`. -/
def specFilename (code backendTag : Str) (ts : Nat) : Str :=
  code.takeWhile (fun c => c != '-') ++ "_python_".toList ++ backendTag
    ++ "_".toList ++ pyStr ts ++ ".mp3".toList

theorem genFilename_eq_spec (code bk : Str) (ts : Nat) :
    genFilename code bk ts
      = specFilename code (if bk = "google".toList then "gtts".toList else bk) ts := by
  unfold genFilename specFilename
  rw [pySplitChar_headD]

theorem demoFilename_eq_spec (code bk : Str) (ts : Nat) :
    demoFilename code bk ts = specFilename code bk ts := by
  unfold demoFilename specFilename
  rw [pySplitChar_headD]

/-- Claim C3 (amended): on a successful run, hello_multilingual.py saves to
`{primarySubcode}_python_{backendTag}_{timestamp}.mp3` with backendTag
`"gtts"` for the Google backend and the backend's own name otherwise; but
multilingual_demo.py uses the `TTS_BACKEND` environment string (default
`"edge"`) verbatim as the tag, with no `"gtts"` substitution. -/
theorem claim_c3 (synth : Str → Str → Except PyError (Option Bytes))
    (save : Bytes → Str → Except PyError Unit) (play : Str → Except PyError Unit)
    (cfg : LanguageConfig) (output_dir backend : Str) (ts : Nat)
    (synthD : Str → Option Str → Except PyError (Option Bytes))
    (saveD : Bytes → Str → Except PyError Unit) (playD : Str → Except PyError Unit)
    (dcfg : DemoLanguageConfig) (ddir : Str) (envB : Option Str) (dts : Nat) :
    ((generate_audio_for_language synth save play cfg output_dir backend ts
        false).success = true →
      ∃ b, (generate_audio_for_language synth save play cfg output_dir backend ts
          false).savedFile
        = some ⟨specFilename cfg.code
              (if backend = "google".toList then "gtts".toList else backend) ts,
            osPathJoin output_dir (specFilename cfg.code
              (if backend = "google".toList then "gtts".toList else backend) ts), b⟩)
    ∧ ((demo_generate_audio_for_language synthD saveD playD dcfg ddir envB dts
        false).success = true →
      ∃ b, (demo_generate_audio_for_language synthD saveD playD dcfg ddir envB dts
          false).savedFile
        = some ⟨specFilename dcfg.code (envB.getD ("edge".toList)) dts,
            osPathJoin ddir (specFilename dcfg.code (envB.getD ("edge".toList)) dts),
            b⟩) := by
  constructor
  · intro h
    obtain ⟨b, hb⟩ := generate_success_savedFile synth save play cfg output_dir
      backend ts h
    refine ⟨b, ?_⟩
    rw [hb, genFilename_eq_spec]
  · intro h
    obtain ⟨b, hb⟩ := demo_generate_success_savedFile synthD saveD playD dcfg ddir
      envB dts h
    refine ⟨b, ?_⟩
    rw [hb, demoFilename_eq_spec]

/-- The demo dict entry used by C3's concrete runs. -/
def demoCfg : DemoLanguageConfig :=
  ⟨"en-US".toList, "English".toList, "us".toList, "hi".toList,
   none, some ("gv".toList), none, none, none⟩

/-- Counterexample to claim C3 as stated: running multilingual_demo.py's
per-language function with TTS_BACKEND=google succeeds and saves to
`en_python_google_7.mp3` — the backend's own name — which differs from the
claimed `..._python_gtts_...` form. -/
theorem claim_c3_counterexample :
    (demo_generate_audio_for_language synthOptOkBytes saveOk playOk demoCfg
        ("output".toList) (some ("google".toList)) 7 false).success = true
    ∧ (demo_generate_audio_for_language synthOptOkBytes saveOk playOk demoCfg
        ("output".toList) (some ("google".toList)) 7 false).savedFile
      = some ⟨"en_python_google_7.mp3".toList,
          "output/en_python_google_7.mp3".toList, [9]⟩
    ∧ "en_python_google_7.mp3".toList
      ≠ specFilename ("en-US".toList) ("gtts".toList) 7 := by
  exact ⟨rfl, rfl, by decide⟩

theorem claim_c3_witness :
    (∃ b, (generate_audio_for_language synthOkBytes saveOk playOk lcRetry
        ("output".toList) ("google".toList) 7 false).savedFile
      = some ⟨specFilename lcRetry.code ("gtts".toList) 7,
          osPathJoin ("output".toList) (specFilename lcRetry.code ("gtts".toList) 7),
          b⟩)
    ∧ (∃ b, (demo_generate_audio_for_language synthOptOkBytes saveOk playOk demoCfg
        ("output".toList) (some ("google".toList)) 7 false).savedFile
      = some ⟨specFilename demoCfg.code ("google".toList) 7,
          osPathJoin ("output".toList) (specFilename demoCfg.code ("google".toList) 7),
          b⟩) := by
  have h := claim_c3 synthOkBytes saveOk playOk lcRetry ("output".toList)
    ("google".toList) 7 synthOptOkBytes saveOk playOk demoCfg ("output".toList)
    (some ("google".toList)) 7
  constructor
  · have h1 := h.1 rfl
    simpa using h1
  · have h2 := h.2 rfl
    simpa using h2
